import Mathlib

/-!
Verification of the playlist-naming, existence-check, track-collection and
playlist-creation logic of `ammo.py` (Automated Monthly Music Organiser),
together with its connectivity preflight.  The Python functions are embedded
shallowly: machine-level side effects become explicit values — printed lines
are collected in a `List String`, remote API calls in a `List ApiCall`, and a
raised `ValueError` becomes `Except.error`.
-/

/-- Gregorian leap-year rule, as used by Python `datetime.date`. -/
def isLeapYear (y : Int) : Bool :=
  y % 4 == 0 && (y % 100 != 0 || y % 400 == 0)

/-- Number of days in a month, as enforced by Python `datetime.date`. -/
def daysInMonth (y : Int) (m : Nat) : Nat :=
  if m == 2 then (if isLeapYear y then 29 else 28)
  else if m == 4 || m == 6 || m == 9 || m == 11 then 30
  else 31

/-- A calendar date as held by a Python `datetime.date` value. -/
structure PyDate where
  year : Int
  month : Nat
  day : Nat
deriving Repr, DecidableEq

/-- Validity condition enforced by the `datetime.date` constructor:
years 1–9999, months 1–12, days within the month. -/
def PyDate.isValid (d : PyDate) : Bool :=
  1 ≤ d.year && d.year ≤ 9999 && 1 ≤ d.month && d.month ≤ 12 &&
  1 ≤ d.day && d.day ≤ daysInMonth d.year d.month

/-- Python `date.replace(year=…, month=…)`: fields not supplied keep their
old value; a `ValueError` is raised when the resulting date is invalid. -/
def PyDate.replace (d : PyDate) (year : Option Int) (month : Option Nat) :
    Except String PyDate :=
  let d2 : PyDate := ⟨year.getD d.year, month.getD d.month, d.day⟩
  if d2.isValid then Except.ok d2 else Except.error "ValueError: invalid date"

/-- Month abbreviations as produced by `strftime` directive for the short
month name in the C locale. -/
def monthShort (m : Nat) : String :=
  match m with
  | 1 => "Jan" | 2 => "Feb" | 3 => "Mar" | 4 => "Apr"
  | 5 => "May" | 6 => "Jun" | 7 => "Jul" | 8 => "Aug"
  | 9 => "Sep" | 10 => "Oct" | 11 => "Nov" | 12 => "Dec"
  | _ => ""

/-- Full month names as produced by `strftime` directive for the long month
name in the C locale. -/
def monthLong (m : Nat) : String :=
  match m with
  | 1 => "January" | 2 => "February" | 3 => "March" | 4 => "April"
  | 5 => "May" | 6 => "June" | 7 => "July" | 8 => "August"
  | 9 => "September" | 10 => "October" | 11 => "November" | 12 => "December"
  | _ => ""

/-- The period computation inside `generate_playlist_name` (ammo.py lines
195–198): for January roll back to December of the previous year, otherwise
step the month back by one; the day of the month is carried over unchanged
by `date.replace`. -/
def computePeriod (ending_date : PyDate) : Except String PyDate :=
  if ending_date.month == 1 then
    ending_date.replace (some (ending_date.year - 1)) (some 12)
  else
    ending_date.replace none (some (ending_date.month - 1))

/-- `generate_playlist_name(ending_date, month_format)` (ammo.py lines
177–206).  A missing `ending_date` is replaced by `today` (the value
`date.today()` would return); the period date is then rendered as
"Mon YYYY" when `month_format` equals `'short'` and "Month YYYY"
otherwise. -/
def generate_playlist_name (today : PyDate) (ending_date : Option PyDate)
    (month_format : String) : Except String String :=
  let ed := ending_date.getD today
  match computePeriod ed with
  | Except.error e => Except.error e
  | Except.ok playlist_date =>
    if month_format == "short" then
      Except.ok (monthShort playlist_date.month ++ " " ++ toString playlist_date.year)
    else
      Except.ok (monthLong playlist_date.month ++ " " ++ toString playlist_date.year)

/-- One remote call against the streaming service, as issued through the
Spotipy client object by the functions of ammo.py. -/
inductive ApiCall
  | currentUserPlaylists
  | currentUserTopTracks (time_range : String) (limit : Int)
  | currentUser
  | userPlaylistCreate (user : String) (name : String) (pub : Bool) (description : String)
  | playlistAddItems (playlist_id : String) (items : List String)
deriving Repr, DecidableEq

/-- The behaviour of a Spotipy client object, as far as ammo.py consumes it:
the authenticated user's id, the names in `current_user_playlists()`, the
track URIs returned by `current_user_top_tracks(time_range, limit)`, and the
id returned by `user_playlist_create(name, public, description)`. -/
structure SpotifyClient where
  userId : String
  playlists : List String
  topTracks : String → Int → List String
  createdId : String → Bool → String → String

/-- `check_if_playlist_exists(playlist_name, spotify_data, copies_allowed)`
(ammo.py lines 209–233).  Returns the raised-or-normal outcome, the printed
lines (one entry per `print` call) and the remote calls issued. -/
def check_if_playlist_exists (playlist_name : String)
    (spotify_data : Option SpotifyClient) (copies_allowed : Bool) :
    Except String Unit × List String × List ApiCall :=
  match spotify_data with
  | none => (Except.error "No Spotify data supplied!", [], [])
  | some sd =>
    let existing_playlists := sd.playlists
    if playlist_name ∈ existing_playlists then
      let exist_output := playlist_name ++ " found on Spotify!"
      if copies_allowed then
        (Except.ok (),
         ["\nWarning: " ++ exist_output ++
          "\nCreating another " ++ playlist_name ++ " playlist.\n"],
         [ApiCall.currentUserPlaylists])
      else
        (Except.error exist_output, [], [ApiCall.currentUserPlaylists])
    else
      (Except.ok (), [], [ApiCall.currentUserPlaylists])

/-- `get_most_played_tracks(spotify_data, tracks_total)` (ammo.py lines
236–265).  An absent or out-of-range `tracks_total` is replaced by 50 with a
printed notice; one `current_user_top_tracks` call is then issued with the
effective limit and the returned URIs are passed through. -/
def get_most_played_tracks (spotify_data : Option SpotifyClient)
    (tracks_total : Option Int) :
    Except String (List String) × List String × List ApiCall :=
  match spotify_data with
  | none => (Except.error "No Spotify data supplied!", [], [])
  | some sd =>
    let bad : Bool :=
      match tracks_total with
      | none => true
      | some n => decide (n < 1) || decide (50 < n)
    let t : Int := if bad then 50 else tracks_total.getD 50
    let notice : List String :=
      if bad then
        ["An invalid number of tracks has been requested!\n" ++
         "Switched to the default request of 50 tracks."]
      else []
    let most_played_tracks := sd.topTracks "short_term" t
    (Except.ok most_played_tracks,
     notice ++
       ["A total of " ++ toString most_played_tracks.length ++
        " songs have been selected."],
     [ApiCall.currentUserTopTracks "short_term" t])

/-- `generate_spotify_playlist(tracks, spotify_data, ending_date,
month_format, playlist_public)` (ammo.py lines 268–335).  Validates its
inputs, defaults a missing ending date to `today`, formats both names,
builds the description with the long name, creates the playlist and adds
the tracks to it. -/
def generate_spotify_playlist (today : PyDate) (tracks : Option (List String))
    (spotify_data : Option SpotifyClient) (ending_date : Option PyDate)
    (month_format : String) (playlist_public : Bool) :
    Except String String × List String × List ApiCall :=
  match tracks with
  | none => (Except.error "No list of tracks supplied!", [], [])
  | some [] => (Except.error "No list of tracks supplied!", [], [])
  | some (t :: ts) =>
    match spotify_data with
    | none => (Except.error "No Spotify data supplied!", [], [])
    | some sd =>
      let ed := ending_date.getD today
      let tracks_total := (t :: ts).length
      let descStart :=
        if tracks_total = 1 then "My top most played song of "
        else "My top " ++ toString tracks_total ++ " most played songs of "
      match generate_playlist_name today (some ed) "short" with
      | Except.error e => (Except.error e, [], [])
      | Except.ok name_short =>
        match generate_playlist_name today (some ed) "long" with
        | Except.error e => (Except.error e, [], [])
        | Except.ok name_long =>
          let titlePick :=
            if month_format == "short" then
              (name_short, "The month will be titled in short form.")
            else
              (name_long, "The month will be titled in long form.")
          let description := descStart ++ name_long ++
            ". Auto-generated with AMMO. Visit https://github.com/JayMassey98 for more information."
          let playlist_id := sd.createdId titlePick.1 playlist_public description
          (Except.ok playlist_id,
           [titlePick.2,
            "Generating a playlist for " ++ name_long ++ ".",
            "\nPlaylist successfully pushed to Spotify:",
            "spotify:playlist:" ++ playlist_id],
           [ApiCall.currentUser,
            ApiCall.userPlaylistCreate sd.userId titlePick.1 playlist_public description,
            ApiCall.playlistAddItems playlist_id (t :: ts)])

/-- Classification of a status code in the `status_codes` table of
`check_connection`: Python `True` for the success entries, a diagnostic
string for the failure entries. -/
inductive StatusEntry
  | success
  | failure (msg : String)
deriving Repr, DecidableEq

/-- The fixed `status_codes` dictionary of `check_connection` (ammo.py
lines 112–124); codes absent from the dictionary map to `none` as
`dict.get` returns Python `None` for them. -/
def status_codes (c : Nat) : Option StatusEntry :=
  match c with
  | 200 => some StatusEntry.success
  | 201 => some StatusEntry.success
  | 204 => some StatusEntry.success
  | 400 => some (StatusEntry.failure "Bad Request: The request could not be understood or was missing required parameters.")
  | 401 => some (StatusEntry.failure "Unauthorized: Authentication failed or user does not have permissions for the requested operation.")
  | 403 => some (StatusEntry.failure "Forbidden: Authentication succeeded, but the authenticated user does not have access to the requested resource.")
  | 404 => some (StatusEntry.failure "Not Found: The requested resource could not be found.")
  | 429 => some (StatusEntry.failure "Too Many Requests: The user has sent too many requests in a given amount of time.")
  | 500 => some (StatusEntry.failure "Internal Server Error: An error occurred on the server.")
  | 502 => some (StatusEntry.failure "Bad Gateway: The server was acting as a gateway or proxy and received an invalid response from the upstream server.")
  | 503 => some (StatusEntry.failure "Service Unavailable: The server is currently unavailable (because it is overloaded or down for maintenance).")
  | _ => none

/-- Outcome of the single `requests.get` call in `check_connection`: either
a network-level exception or a response with a status code. -/
inductive HttpOutcome
  | exn
  | status (code : Nat)
deriving Repr, DecidableEq

/-- How `check_connection` leaves the process: a normal return or
`sys.exit` with the given code. -/
inductive ConnOutcome
  | ret
  | exit (code : Nat)
deriving Repr, DecidableEq

/-- `check_connection(url, dry_run)` (ammo.py lines 97–147), with the GET
request's outcome passed in explicitly.  Returns the process outcome, the
printed lines, and whether a network request was issued at all. -/
def check_connection (url : String) (dry_run : Bool) (outcome : HttpOutcome) :
    ConnOutcome × List String × Bool :=
  if dry_run then
    (ConnOutcome.ret, ["Secured a " ++ url ++ " link."], false)
  else
    match outcome with
    | HttpOutcome.exn =>
      (ConnOutcome.exit 1,
       ["Error: An unknown error occurred when attempting to reach " ++ url ++ "."],
       true)
    | HttpOutcome.status c =>
      match status_codes c with
      | some StatusEntry.success =>
        (ConnOutcome.ret, ["Secured a " ++ url ++ " link."], true)
      | some (StatusEntry.failure msg) =>
        (ConnOutcome.exit 1, [msg], true)
      | none =>
        (ConnOutcome.exit 1, [], true)

/-- The client shape built by `mock_ammo.mock_SpotifyClient`: one existing
playlist named `existing_playlist`, `limit` copies of the URI `track_id`
from the top-tracks endpoint, and a fixed created-playlist id. -/
def mockClient : SpotifyClient where
  userId := "user_id"
  playlists := ["existing_playlist"]
  topTracks := fun _ limit => List.replicate limit.toNat "track_id"
  createdId := fun _ _ _ => "mock_playlist_uri_code"

example : computePeriod ⟨2023, 2, 1⟩ = Except.ok ⟨2023, 1, 1⟩ := by rfl
example : computePeriod ⟨2023, 1, 1⟩ = Except.ok ⟨2022, 12, 1⟩ := by rfl
example : generate_playlist_name ⟨2023, 2, 1⟩ (some ⟨2023, 2, 1⟩) "short" =
    Except.ok "Jan 2023" := by rfl
example : generate_playlist_name ⟨2023, 1, 1⟩ (some ⟨2023, 1, 1⟩) "long" =
    Except.ok "December 2022" := by rfl

/-- Helper: when the period computation succeeds, the short-format name is
the abbreviated month of the period followed by its year. -/
theorem gpn_short_of_period (today ed per : PyDate)
    (hp : computePeriod ed = Except.ok per) :
    generate_playlist_name today (some ed) "short" =
      Except.ok (monthShort per.month ++ " " ++ toString per.year) := by
  unfold generate_playlist_name
  simp [hp]

/-- Helper: when the period computation succeeds, any format selector other
than `'short'` yields the full month of the period followed by its year. -/
theorem gpn_long_of_period (today ed per : PyDate) (fmt : String)
    (hf : (fmt == "short") = false)
    (hp : computePeriod ed = Except.ok per) :
    generate_playlist_name today (some ed) fmt =
      Except.ok (monthLong per.month ++ " " ++ toString per.year) := by
  unfold generate_playlist_name
  simp [hp, hf]

/-- C1 counterexample: 31 March 2023 is a valid calendar date, yet the
period computation inside `generate_playlist_name` raises a `ValueError`
instead of returning a date (there is no 31 February); and for the valid
date 15 February 2023 it returns 15 January 2023 — the day of the month is
carried over, not replaced by the first of the month. -/
theorem c1_counterexample :
    PyDate.isValid ⟨2023, 3, 31⟩ = true ∧
    computePeriod ⟨2023, 3, 31⟩ = Except.error "ValueError: invalid date" ∧
    PyDate.isValid ⟨2023, 2, 15⟩ = true ∧
    computePeriod ⟨2023, 2, 15⟩ = Except.ok ⟨2023, 1, 15⟩ :=
  ⟨by decide, by rfl, by decide, by rfl⟩

/-- C1 (amended): for every valid reference date whose day also exists in
the preceding calendar month (and, for January references, whose year is at
least 2), the period computation succeeds and returns the same day of the
immediately preceding month, with January rolling back to December of the
previous year; the day of the month is preserved, not set to 1, and for
days absent from the preceding month the computation raises instead. -/
theorem c1_computePeriod_prev_month (d : PyDate) (hv : d.isValid = true)
    (hy : d.month = 1 → 2 ≤ d.year)
    (hd : d.day ≤ daysInMonth (if d.month = 1 then d.year - 1 else d.year)
                              (if d.month = 1 then 12 else d.month - 1)) :
    computePeriod d =
      Except.ok ⟨if d.month = 1 then d.year - 1 else d.year,
                 if d.month = 1 then 12 else d.month - 1, d.day⟩ := by
  obtain ⟨y, m, dy⟩ := d
  simp only [PyDate.isValid, Bool.and_eq_true, decide_eq_true_eq] at hv
  obtain ⟨⟨⟨⟨⟨h1, h2⟩, h3⟩, h4⟩, h5⟩, h6⟩ := hv
  by_cases hm : m = 1
  · subst hm
    have hy2 : 2 ≤ y := hy rfl
    have hval : (PyDate.mk (y - 1) 12 dy).isValid = true := by
      simp only [PyDate.isValid, Bool.and_eq_true, decide_eq_true_eq, daysInMonth,
        if_true, reduceIte] at hd ⊢
      omega
    simp [computePeriod, PyDate.replace, hval]
  · have hd' : dy ≤ daysInMonth y (m - 1) := by simpa [hm] using hd
    have hval : (PyDate.mk y (m - 1) dy).isValid = true := by
      simp only [PyDate.isValid, Bool.and_eq_true, decide_eq_true_eq]
      refine ⟨⟨⟨⟨⟨h1, h2⟩, by omega⟩, by omega⟩, h5⟩, hd'⟩
    have hne : (m == 1) = false := by simp [hm]
    simp [computePeriod, PyDate.replace, hval, hne, hm]

/-- C1 witness: the amended statement applied to 15 March 2023, giving the
period 15 February 2023. -/
theorem c1_computePeriod_prev_month_witness :
    computePeriod ⟨2023, 3, 15⟩ =
      Except.ok ⟨if (⟨2023, 3, 15⟩ : PyDate).month = 1 then 2022 else 2023,
                 if (⟨2023, 3, 15⟩ : PyDate).month = 1 then 12 else 2, 15⟩ :=
  c1_computePeriod_prev_month ⟨2023, 3, 15⟩ (by decide) (by decide) (by decide)

/-- C2 counterexample: with no period date supplied, `generate_playlist_name`
does not fail at all — for a run whose current date is 1 February 2023 and
the `'short'` selector it returns the name "Jan 2023". -/
theorem c2_counterexample :
    generate_playlist_name ⟨2023, 2, 1⟩ none "short" = Except.ok "Jan 2023" := by
  rfl

/-- C2 (amended): when no period date is supplied, `generate_playlist_name`
does not fail with an invalid-argument error for any format selector; it
substitutes the current date and behaves exactly as if that date had been
supplied explicitly. -/
theorem c2_gpn_defaults_to_today (today : PyDate) (month_format : String) :
    generate_playlist_name today none month_format =
      generate_playlist_name today (some today) month_format := rfl

/-- C10: in both `generate_playlist_name` and `generate_spotify_playlist`,
every month-format selector other than the exact string `'short'` behaves
identically to `'long'`; the selector is never rejected. -/
theorem c10_month_format_fallback (today : PyDate) (ed : Option PyDate)
    (tracks : Option (List String)) (sd : Option SpotifyClient)
    (edo : Option PyDate) (pub : Bool) (fmt : String) (hf : fmt ≠ "short") :
    generate_playlist_name today ed fmt = generate_playlist_name today ed "long" ∧
    generate_spotify_playlist today tracks sd edo fmt pub =
      generate_spotify_playlist today tracks sd edo "long" pub := by
  have hb : (fmt == "short") = false := by
    rw [beq_eq_false_iff_ne]
    exact hf
  constructor
  · unfold generate_playlist_name
    cases computePeriod (ed.getD today) <;> simp [hb]
  · cases tracks with
    | none => rfl
    | some l =>
      cases l with
      | nil => rfl
      | cons t ts =>
        cases sd with
        | none => rfl
        | some c =>
          unfold generate_spotify_playlist
          cases generate_playlist_name today (some (edo.getD today)) "short" <;>
            cases generate_playlist_name today (some (edo.getD today)) "long" <;>
              simp [hb]

/-- C10 witness: the misspelt selector `'Long'` behaves as `'long'` on a
concrete date, track list and client. -/
theorem c10_month_format_fallback_witness :
    generate_playlist_name ⟨2023, 3, 1⟩ (some ⟨2023, 3, 1⟩) "Long" =
      generate_playlist_name ⟨2023, 3, 1⟩ (some ⟨2023, 3, 1⟩) "long" ∧
    generate_spotify_playlist ⟨2023, 3, 1⟩ (some ["a"]) (some mockClient) none "Long" true =
      generate_spotify_playlist ⟨2023, 3, 1⟩ (some ["a"]) (some mockClient) none "long" true :=
  c10_month_format_fallback ⟨2023, 3, 1⟩ (some ⟨2023, 3, 1⟩) (some ["a"])
    (some mockClient) none true "Long" (by decide)

/-- C3: for every client and every requested track count outside the
inclusive range [1, 50] — absent, zero, negative, or above 50 —
`get_most_played_tracks` succeeds, issues its single remote request with
the count replaced by exactly 50, prints the informational notice, and
(whenever the remote endpoint honours its limit) the returned collection
has at most 50 entries. -/
theorem c3_get_most_played_tracks_clamps (sd : SpotifyClient) (t : Option Int)
    (ht : t = none ∨ ∃ n, t = some n ∧ (n < 1 ∨ 50 < n)) :
    get_most_played_tracks (some sd) t =
      (Except.ok (sd.topTracks "short_term" 50),
       ["An invalid number of tracks has been requested!\n" ++
        "Switched to the default request of 50 tracks.",
        "A total of " ++ toString (sd.topTracks "short_term" 50).length ++
        " songs have been selected."],
       [ApiCall.currentUserTopTracks "short_term" 50]) ∧
    ((∀ s l, (sd.topTracks s l).length ≤ l.toNat) →
      (sd.topTracks "short_term" 50).length ≤ 50) := by
  constructor
  · rcases ht with h | ⟨n, hn, hr⟩
    · subst h
      rfl
    · subst hn
      have hb : (decide (n < 1) || decide (50 < n)) = true := by
        rcases hr with h | h <;> simp [h]
      simp [get_most_played_tracks, hb]
  · intro hc
    have h := hc "short_term" 50
    simpa using h

/-- C3 witness: the clamping statement applied to the mock client and the
out-of-range request of 100 tracks. -/
theorem c3_get_most_played_tracks_clamps_witness :
    get_most_played_tracks (some mockClient) (some 100) =
      (Except.ok (mockClient.topTracks "short_term" 50),
       ["An invalid number of tracks has been requested!\n" ++
        "Switched to the default request of 50 tracks.",
        "A total of " ++ toString (mockClient.topTracks "short_term" 50).length ++
        " songs have been selected."],
       [ApiCall.currentUserTopTracks "short_term" 50]) ∧
    (mockClient.topTracks "short_term" 50).length ≤ 50 := by
  have h := c3_get_most_played_tracks_clamps mockClient (some 100)
    (Or.inr ⟨100, rfl, Or.inr (by norm_num)⟩)
  exact ⟨h.1, h.2 (fun s l => by simp [mockClient])⟩

/-- C4: `check_if_playlist_exists` against a supplied client: on an exact
(case-sensitive) name collision it raises a conflict error whose message
names the colliding playlist when copies are disallowed, and returns
normally after exactly one printed notice when copies are allowed; with no
collision it returns normally printing nothing, in all cases issuing only
the single playlist-listing read. -/
theorem c4_check_if_playlist_exists (name : String) (sd : SpotifyClient) :
    (name ∈ sd.playlists →
      check_if_playlist_exists name (some sd) false =
        (Except.error (name ++ " found on Spotify!"), [],
         [ApiCall.currentUserPlaylists]) ∧
      check_if_playlist_exists name (some sd) true =
        (Except.ok (),
         ["\nWarning: " ++ (name ++ " found on Spotify!") ++
          "\nCreating another " ++ name ++ " playlist.\n"],
         [ApiCall.currentUserPlaylists])) ∧
    (name ∉ sd.playlists →
      check_if_playlist_exists name (some sd) false =
        (Except.ok (), [], [ApiCall.currentUserPlaylists]) ∧
      check_if_playlist_exists name (some sd) true =
        (Except.ok (), [], [ApiCall.currentUserPlaylists])) := by
  constructor
  · intro hmem
    constructor <;> simp [check_if_playlist_exists, hmem]
  · intro hmem
    constructor <;> simp [check_if_playlist_exists, hmem]

/-- C4 witness: the statement applied to the mock client, whose only
playlist is named `existing_playlist`, for a colliding and for a fresh
name. -/
theorem c4_check_if_playlist_exists_witness :
    check_if_playlist_exists "existing_playlist" (some mockClient) false =
      (Except.error ("existing_playlist" ++ " found on Spotify!"), [],
       [ApiCall.currentUserPlaylists]) ∧
    check_if_playlist_exists "existing_playlist" (some mockClient) true =
      (Except.ok (),
       ["\nWarning: " ++ ("existing_playlist" ++ " found on Spotify!") ++
        "\nCreating another " ++ "existing_playlist" ++ " playlist.\n"],
       [ApiCall.currentUserPlaylists]) ∧
    check_if_playlist_exists "new_playlist" (some mockClient) false =
      (Except.ok (), [], [ApiCall.currentUserPlaylists]) := by
  refine ⟨?_, ?_, ?_⟩
  · exact (((c4_check_if_playlist_exists "existing_playlist" mockClient).1) (by decide)).1
  · exact (((c4_check_if_playlist_exists "existing_playlist" mockClient).1) (by decide)).2
  · exact (((c4_check_if_playlist_exists "new_playlist" mockClient).2) (by decide)).1

/-- C5: `generate_spotify_playlist` called with an empty track collection
(whether the argument is absent or an empty list) fails with the
invalid-argument error naming the missing tracks, prints nothing, and
issues zero remote calls. -/
theorem c5_generate_spotify_playlist_empty (today : PyDate)
    (sd : Option SpotifyClient) (ed : Option PyDate) (fmt : String) (pub : Bool) :
    generate_spotify_playlist today (some []) sd ed fmt pub =
      (Except.error "No list of tracks supplied!", [], []) ∧
    generate_spotify_playlist today none sd ed fmt pub =
      (Except.error "No list of tracks supplied!", [], []) :=
  ⟨rfl, rfl⟩

/-- C6: for every non-empty track list, client, period date and format
selector, the playlist description built by `generate_spotify_playlist`
embeds the long-form month name regardless of the selected title format,
starts "My top most played song of " for exactly one track and
"My top N most played songs of " otherwise, and ends with the fixed
promotional suffix. -/
theorem c6_description_long_form (today : PyDate) (t : String) (ts : List String)
    (sd : SpotifyClient) (ed per : PyDate) (fmt : String) (pub : Bool)
    (hp : computePeriod ed = Except.ok per) :
    ∃ title,
      ((generate_spotify_playlist today (some (t :: ts)) (some sd) (some ed) fmt pub).2.2)[1]? =
        some (ApiCall.userPlaylistCreate sd.userId title pub
          ((if ts = [] then "My top most played song of "
            else "My top " ++ toString (ts.length + 1) ++ " most played songs of ") ++
           (monthLong per.month ++ " " ++ toString per.year) ++
           ". Auto-generated with AMMO. Visit https://github.com/JayMassey98 for more information.")) := by
  have hs := gpn_short_of_period today ed per hp
  have hl := gpn_long_of_period today ed per "long" rfl hp
  refine ⟨if fmt == "short" then monthShort per.month ++ " " ++ toString per.year
          else monthLong per.month ++ " " ++ toString per.year, ?_⟩
  cases hb : fmt == "short" <;>
    cases ts with
    | nil => simp [generate_spotify_playlist, hs, hl, hb]
    | cons t2 ts2 => simp [generate_spotify_playlist, hs, hl, hb]

/-- C6 witness: three tracks, period January 2023, short title format — the
description nevertheless reads "My top 3 most played songs of January
2023." followed by the promotional suffix. -/
theorem c6_description_long_form_witness :
    ∃ title,
      ((generate_spotify_playlist ⟨2023, 2, 1⟩ (some ["song_1", "song_2", "song_3"])
          (some mockClient) (some ⟨2023, 2, 1⟩) "short" true).2.2)[1]? =
        some (ApiCall.userPlaylistCreate mockClient.userId title true
          ((if (["song_2", "song_3"] : List String) = [] then "My top most played song of "
            else "My top " ++ toString ((["song_2", "song_3"] : List String).length + 1) ++
              " most played songs of ") ++
           (monthLong 1 ++ " " ++ toString (2023 : Int)) ++
           ". Auto-generated with AMMO. Visit https://github.com/JayMassey98 for more information.")) :=
  c6_description_long_form ⟨2023, 2, 1⟩ "song_1" ["song_2", "song_3"] mockClient
    ⟨2023, 2, 1⟩ ⟨2023, 1, 1⟩ "short" true (by rfl)

/-- C7: for every non-empty track list and supplied client, when the period
computation succeeds `generate_spotify_playlist` issues exactly one
playlist-creation call followed by exactly one add-tracks call, the latter
addressed to the identifier the creation call returned and carrying the
full track collection in its original order. -/
theorem c7_create_then_add (today : PyDate) (t : String) (ts : List String)
    (sd : SpotifyClient) (ed per : PyDate) (fmt : String) (pub : Bool)
    (hp : computePeriod ed = Except.ok per) :
    ∃ title description,
      (generate_spotify_playlist today (some (t :: ts)) (some sd) (some ed) fmt pub).2.2 =
        [ApiCall.currentUser,
         ApiCall.userPlaylistCreate sd.userId title pub description,
         ApiCall.playlistAddItems (sd.createdId title pub description) (t :: ts)] ∧
      (generate_spotify_playlist today (some (t :: ts)) (some sd) (some ed) fmt pub).1 =
        Except.ok (sd.createdId title pub description) := by
  have hs := gpn_short_of_period today ed per hp
  have hl := gpn_long_of_period today ed per "long" rfl hp
  cases hb : fmt == "short" <;>
    simp [generate_spotify_playlist, hs, hl, hb] <;>
      exact ⟨_, _, ⟨rfl, rfl⟩, rfl⟩

/-- C7 witness: three tracks, the mock client and period January 2023 — one
create call, then one add-tracks call against the created id with all three
tracks in order. -/
theorem c7_create_then_add_witness :
    ∃ title description,
      (generate_spotify_playlist ⟨2023, 2, 1⟩ (some ["song_1", "song_2", "song_3"])
          (some mockClient) (some ⟨2023, 2, 1⟩) "short" true).2.2 =
        [ApiCall.currentUser,
         ApiCall.userPlaylistCreate mockClient.userId title true description,
         ApiCall.playlistAddItems (mockClient.createdId title true description)
           ["song_1", "song_2", "song_3"]] ∧
      (generate_spotify_playlist ⟨2023, 2, 1⟩ (some ["song_1", "song_2", "song_3"])
          (some mockClient) (some ⟨2023, 2, 1⟩) "short" true).1 =
        Except.ok (mockClient.createdId title true description) :=
  c7_create_then_add ⟨2023, 2, 1⟩ "song_1" ["song_2", "song_3"] mockClient
    ⟨2023, 2, 1⟩ ⟨2023, 1, 1⟩ "short" true (by rfl)

/-- C8 counterexample: the status code 302 is not classified as a success,
and `check_connection` terminates with exit code 1 — but prints no
diagnostic at all, because 302 is absent from the `status_codes` table. -/
theorem c8_counterexample :
    status_codes 302 ≠ some StatusEntry.success ∧
    check_connection "https://api.spotify.com" false (HttpOutcome.status 302) =
      (ConnOutcome.exit 1, [], true) :=
  ⟨by decide, rfl⟩

/-- C8 (amended): without simulation, any response status code not
classified as a success (and any network exception) makes
`check_connection` terminate the process with exit code 1; a diagnostic is
printed exactly when the code appears in the fixed failure table (or an
exception occurred) — codes absent from the table exit silently; a success
classification returns normally. -/
theorem c8_check_connection_exit (url : String) (c : Nat) :
    (status_codes c ≠ some StatusEntry.success →
      (check_connection url false (HttpOutcome.status c)).1 = ConnOutcome.exit 1 ∧
      ((check_connection url false (HttpOutcome.status c)).2.1 = [] ↔
        status_codes c = none)) ∧
    (status_codes c = some StatusEntry.success →
      check_connection url false (HttpOutcome.status c) =
        (ConnOutcome.ret, ["Secured a " ++ url ++ " link."], true)) ∧
    check_connection url false HttpOutcome.exn =
      (ConnOutcome.exit 1,
       ["Error: An unknown error occurred when attempting to reach " ++ url ++ "."],
       true) := by
  refine ⟨?_, ?_, rfl⟩
  · intro h
    cases hsc : status_codes c with
    | none => simp [check_connection, hsc]
    | some e =>
      cases e with
      | success => exact absurd hsc h
      | failure m => simp [check_connection, hsc]
  · intro h
    simp [check_connection, h]

/-- C8 witness: the amended statement at the Spotify API URL, for the
known failure code 503 and the success code 200. -/
theorem c8_check_connection_exit_witness :
    (check_connection "https://api.spotify.com" false (HttpOutcome.status 503)).1 =
      ConnOutcome.exit 1 ∧
    check_connection "https://api.spotify.com" false (HttpOutcome.status 200) =
      (ConnOutcome.ret, ["Secured a " ++ "https://api.spotify.com" ++ " link."], true) :=
  ⟨((c8_check_connection_exit "https://api.spotify.com" 503).1 (by decide)).1,
   (c8_check_connection_exit "https://api.spotify.com" 200).2.1 rfl⟩

/-- C9: with the simulation flag set, `check_connection` returns normally
for every URL and every would-be network outcome, issues no network
request, and does not terminate the process. -/
theorem c9_check_connection_dry_run (url : String) (outcome : HttpOutcome) :
    check_connection url true outcome =
      (ConnOutcome.ret, ["Secured a " ++ url ++ " link."], false) := rfl
